import Mathlib

/-!
# Verification of the TouchControls virtual gamepad (`src/TouchControls/TouchControls.js`)

A shallow embedding of the touch-control overlay script.  Numeric values that
the JavaScript source computes with IEEE doubles are modelled over a linear
ordered field (instantiated at `ℚ` for executable statements and at `ℝ` when a
claim mentions `π`).  The transcendental prefix of the joystick handler
(`Math.atan2`, `Math.sqrt`, lines 295–301) computes the polar coordinates of
the contact relative to the joystick-base centre; the embedding takes that
resolved pair `(distance, angle)` as the move sample, with
`distance = min(radius, √(Δx² + Δy²))` already clamped and
`angle = atan2(Δy, Δx) ∈ [-π, π]`, exactly as the source produces before any
branching happens.
-/

namespace TouchControls

/-- The four discrete joystick directions (the JS strings
`'left' | 'right' | 'up' | 'down'`; `null` is modelled as `Option.none`). -/
inductive Dir where
  | left
  | right
  | up
  | down
deriving DecidableEq, Repr

/-- One entry of `KEY_MAPPINGS` (lines 44–56): `{ key, keyCode, code }`. -/
structure KeyMapping where
  key : String
  keyCode : Nat
  code : String
deriving DecidableEq, Repr

/-- The `KEY_MAPPINGS` table, lines 44–56: element id to keyboard mapping;
ids outside the table give `undefined`, modelled as `none`. -/
def KEY_MAPPINGS : String → Option KeyMapping
  | "touch-z" => some ⟨"z", 90, "KeyZ"⟩
  | "touch-x" => some ⟨"x", 88, "KeyX"⟩
  | "touch-c" => some ⟨"c", 67, "KeyC"⟩
  | "touch-v" => some ⟨"v", 86, "KeyV"⟩
  | "touch-m" => some ⟨"m", 77, "KeyM"⟩
  | "touch-q" => some ⟨"q", 81, "KeyQ"⟩
  | "touch-esc" => some ⟨"Escape", 27, "Escape"⟩
  | "touch-up" => some ⟨"ArrowUp", 38, "ArrowUp"⟩
  | "touch-down" => some ⟨"ArrowDown", 40, "ArrowDown"⟩
  | "touch-left" => some ⟨"ArrowLeft", 37, "ArrowLeft"⟩
  | "touch-right" => some ⟨"ArrowRight", 39, "ArrowRight"⟩
  | _ => none

/-- JavaScript string coercion used in `'touch-' + currentJoystickDirection`
(lines 313–314): a direction prints as its name and `null` prints as
`"null"`. -/
def dirString : Option Dir → String
  | none => "null"
  | some Dir.left => "left"
  | some Dir.right => "right"
  | some Dir.up => "up"
  | some Dir.down => "down"

/-- The element id looked up for a (possibly null) direction:
`'touch-' + direction`. -/
def dirMappingId (d : Option Dir) : String := "touch-" ++ dirString d

/-- The kind of a synthetic keyboard event (`'keydown'` / `'keyup'`). -/
inductive KeyEvType where
  | keydown
  | keyup
deriving DecidableEq, Repr

/-- A dispatched synthetic keyboard event: its type plus the mapping whose
fields (`key`, `code`, `keyCode`, `which`) populate the `KeyboardEvent`
(line 265). -/
structure KeyEvent where
  type : KeyEvType
  mapping : KeyMapping
deriving DecidableEq, Repr

/-- `simulateKeyEvent` (lines 261–267): with no mapping it returns without
dispatching; otherwise it dispatches exactly one event of the given type
carrying the mapping.  The embedding returns the list of dispatched events. -/
def simulateKeyEvent (t : KeyEvType) (m : Option KeyMapping) : List KeyEvent :=
  match m with
  | none => []
  | some mp => [⟨t, mp⟩]

/-- The four-way angle ladder of `handleJoystickMove` (lines 305–309), run
only above the deadzone.  All comparisons are strict, exactly as in the
source (`2.356` and `0.785` are the literal thresholds). -/
def directionLadder {α : Type} [LinearOrderedField α] (angle : α) : Option Dir :=
  if |angle| > 2356 / 1000 then some Dir.left
  else if |angle| < 785 / 1000 then some Dir.right
  else if angle < -(785 / 1000) then some Dir.up
  else if angle > 785 / 1000 then some Dir.down
  else none

/-- Direction resolution of `handleJoystickMove` (lines 303–310): `radius`
is `rect.width / 2` and `20 / 100` is the `joystickDeadzone = 0.20` constant
(line 258); below or at the deadzone the direction stays `null`. -/
def resolveDirection {α : Type} [LinearOrderedField α]
    (radius distance angle : α) : Option Dir :=
  if distance > radius * (20 / 100) then directionLadder angle else none

/-- The lookup the joystick handler performs for a direction value:
`KEY_MAPPINGS['touch-' + direction]`.  For `none` the id is `"touch-null"`,
which has no table entry. -/
def arrowKeyMapping : Dir → KeyMapping
  | Dir.up => ⟨"ArrowUp", 38, "ArrowUp"⟩
  | Dir.down => ⟨"ArrowDown", 40, "ArrowDown"⟩
  | Dir.left => ⟨"ArrowLeft", 37, "ArrowLeft"⟩
  | Dir.right => ⟨"ArrowRight", 39, "ArrowRight"⟩

/-- `handleJoystickMove` (lines 294–321) for one move sample, at the polar
level (see the file header): given the previous `currentJoystickDirection`,
it returns the updated direction together with the list of synthetic key
events dispatched, in dispatch order.  The thumb translation (lines 318–320)
is visual only and carries no verified state, so it is not part of the
result. -/
def handleJoystickMove (radius distance angle : ℚ) (prev : Option Dir) :
    Option Dir × List KeyEvent :=
  let direction := resolveDirection radius distance angle
  if direction ≠ prev then
    (direction,
      simulateKeyEvent KeyEvType.keyup (KEY_MAPPINGS (dirMappingId prev)) ++
        simulateKeyEvent KeyEvType.keydown (KEY_MAPPINGS (dirMappingId direction)))
  else
    (prev, [])

/-- `JoystickRuntimeState`: the module-level joystick state,
`activeJoystickTouchId` (line 292) and `currentJoystickDirection` (line 63). -/
structure JoystickRuntimeState where
  activeJoystickTouchId : Option Nat
  currentJoystickDirection : Option Dir
deriving DecidableEq, Repr

/-- The `touchstart` listener on `joystick-base` (lines 323–327): it records
the contact identifier and immediately runs `handleJoystickMove` on the
initial contact point (given here, as everywhere, by its clamped polar
coordinates relative to the base centre). -/
def joystickTouchstart (radius : ℚ) (st : JoystickRuntimeState)
    (touchId : Nat) (distance angle : ℚ) :
    JoystickRuntimeState × List KeyEvent :=
  let r := handleJoystickMove radius distance angle st.currentJoystickDirection
  (⟨some touchId, r.1⟩, r.2)

/-- The nearest `.virtual-button` ancestor of a touch target as found by
`e.target.closest('.virtual-button')`: its element id and class list. -/
structure ButtonInfo where
  id : String
  classes : List String
deriving DecidableEq, Repr

/-- The discreteness test of lines 272 and 283: the resolved button carries
one of the `action-button`, `dpad-button` or `system-button` classes. -/
def isDiscrete (b : ButtonInfo) : Bool :=
  b.classes.contains "action-button" || b.classes.contains "dpad-button" ||
    b.classes.contains "system-button"

/-- Whether a touch target resolves to a discrete control: the `closest`
lookup found a button (`some`) and that button is discrete. -/
def resolvesDiscrete : Option ButtonInfo → Bool
  | none => false
  | some b => isDiscrete b

/-- The `touchstart` listener on the container (lines 270–277), acting on the
set of ids currently carrying the `active` class: over a discrete control it
marks the button active and dispatches its key-down; otherwise it does
nothing.  Returns the new active set and the dispatched events. -/
def containerTouchstart (active : List String) (btn : Option ButtonInfo) :
    List String × List KeyEvent :=
  match btn with
  | some b =>
      if isDiscrete b then
        (b.id :: active, simulateKeyEvent KeyEvType.keydown (KEY_MAPPINGS b.id))
      else (active, [])
  | none => (active, [])

/-- The `touchend` listener on the container (lines 279–287): it first
removes the `active` class from every active button (the defensive clear),
then dispatches a key-up only when the event target itself resolves to a
discrete control. -/
def containerTouchend (_active : List String) (btn : Option ButtonInfo) :
    List String × List KeyEvent :=
  ([],
    match btn with
    | some b =>
        if isDiscrete b then simulateKeyEvent KeyEvType.keyup (KEY_MAPPINGS b.id)
        else []
    | none => [])

/-- The `CONFIG` constants (lines 31–38): master scale, edge padding percent
and inter-button gap percent. -/
structure Config where
  scale : ℚ
  paddingPercent : ℚ
  gapPercent : ℚ
deriving DecidableEq, Repr

/-- The repository's configuration values: `scale: 1.0`, `paddingPercent: 4`,
`gapPercent: 3`. -/
def CONFIG : Config := ⟨1, 4, 3⟩

/-- An absolute bounding box in viewport coordinates.  CSS `bottom`/`right`
anchored styles are converted on construction: an element with
`bottom: b; right: r` and size `(w, h)` in a `W × H` viewport occupies
`left = W - r - w`, `top = H - b - h`. -/
structure Box where
  left : ℚ
  top : ℚ
  width : ℚ
  height : ℚ
deriving DecidableEq, Repr

/-- Every style value `calculateAndApplyLayout` (lines 174–248) assigns:
the positioned boxes of the clusters, the six action buttons (in absolute
coordinates, cluster offset included), the ESC button, the two movement
containers and the toggle button, plus the sizes it sets on grid/flex
positioned children (d-pad buttons, joystick base and thumb, whose positions
are determined by CSS `grid`/`flex` rules, not by this pass) and the font
metrics. -/
structure LayoutState where
  actionCluster : Box
  touchQ : Box
  touchZ : Box
  touchX : Box
  touchM : Box
  touchC : Box
  touchV : Box
  touchEsc : Box
  dpadContainer : Box
  joystickContainer : Box
  toggleButton : Box
  dpadButtonSize : ℚ
  joystickBaseSize : ℚ
  joystickThumbSize : ℚ
  actionFontSize : ℚ
  escFontSize : ℚ
  toggleFontSize : ℚ
  toggleBorderRadius : ℚ
deriving DecidableEq, Repr

/-- A blank style state (all geometry zero), standing for the styles before
the first layout pass. -/
def emptyLayout : LayoutState :=
  ⟨⟨0, 0, 0, 0⟩, ⟨0, 0, 0, 0⟩, ⟨0, 0, 0, 0⟩, ⟨0, 0, 0, 0⟩, ⟨0, 0, 0, 0⟩,
    ⟨0, 0, 0, 0⟩, ⟨0, 0, 0, 0⟩, ⟨0, 0, 0, 0⟩, ⟨0, 0, 0, 0⟩, ⟨0, 0, 0, 0⟩,
    ⟨0, 0, 0, 0⟩, 0, 0, 0, 0, 0, 0, 0⟩

/-- `calculateAndApplyLayout` (lines 174–248).  `screenW`/`screenH` are the
`window.innerWidth`/`innerHeight` read at entry; `prev` is the style state
the pass overwrites (every field is assigned, mirroring the unconditional
`applyStyle` calls; the source skips an assignment only when an element is
missing from the tree, and the embedding assumes the tree built by
`buildControls` where all elements exist).  Decimal literals are written as
exact fractions (`1.4 = 14/10`, `0.11 = 11/100`, ...). -/
def calculateAndApplyLayout (cfg : Config) (prev : LayoutState)
    (screenW screenH : ℚ) : LayoutState :=
  let isLandscape := screenW > screenH
  let shortSide := min screenW screenH
  let sizeMultiplier : ℚ := if isLandscape then 14 / 10 else 1
  let scale := cfg.scale * sizeMultiplier
  let padding := shortSide * cfg.paddingPercent / 100
  let gap := shortSide * cfg.gapPercent / 100
  let actionButtonSize := shortSide * (11 / 100) * scale
  let movementClusterSize := shortSide * (38 / 100) * scale
  let clusterWidth := actionButtonSize * 3 + gap * 2
  let clusterHeight := actionButtonSize * 2 + gap
  let clusterLeft := screenW - padding - clusterWidth
  let clusterTop := screenH - padding - clusterHeight
  let escButtonSize := shortSide * (10 / 100) * scale
  let dpadButtonSize := movementClusterSize / (32 / 10)
  let joystickBaseSize := movementClusterSize * (8 / 10)
  let toggleButtonW := shortSide * (22 / 100) * scale
  let toggleButtonH := shortSide * (7 / 100) * scale
  let toggleBottom := padding + movementClusterSize + gap
  let toggleLeft := padding + movementClusterSize / 2 - toggleButtonW / 2
  { prev with
    actionCluster := ⟨clusterLeft, clusterTop, clusterWidth, clusterHeight⟩
    touchQ := ⟨clusterLeft, clusterTop, actionButtonSize, actionButtonSize⟩
    touchZ := ⟨clusterLeft + actionButtonSize + gap, clusterTop,
      actionButtonSize, actionButtonSize⟩
    touchX := ⟨clusterLeft + clusterWidth - actionButtonSize, clusterTop,
      actionButtonSize, actionButtonSize⟩
    touchM := ⟨clusterLeft, clusterTop + clusterHeight - actionButtonSize,
      actionButtonSize, actionButtonSize⟩
    touchC := ⟨clusterLeft + actionButtonSize + gap,
      clusterTop + clusterHeight - actionButtonSize,
      actionButtonSize, actionButtonSize⟩
    touchV := ⟨clusterLeft + clusterWidth - actionButtonSize,
      clusterTop + clusterHeight - actionButtonSize,
      actionButtonSize, actionButtonSize⟩
    touchEsc := ⟨screenW - padding - escButtonSize, padding,
      escButtonSize, escButtonSize⟩
    dpadContainer := ⟨padding, screenH - padding - movementClusterSize,
      movementClusterSize, movementClusterSize⟩
    joystickContainer := ⟨padding, screenH - padding - movementClusterSize,
      movementClusterSize, movementClusterSize⟩
    toggleButton := ⟨toggleLeft, screenH - toggleBottom - toggleButtonH,
      toggleButtonW, toggleButtonH⟩
    dpadButtonSize := dpadButtonSize
    joystickBaseSize := joystickBaseSize
    joystickThumbSize := joystickBaseSize / 2
    actionFontSize := actionButtonSize * (45 / 100)
    escFontSize := escButtonSize * (4 / 10)
    toggleFontSize := toggleButtonH * (45 / 100)
    toggleBorderRadius := toggleButtonH / 4 }

/-- A box lies fully within the `W × H` viewport. -/
def inView (W H : ℚ) (b : Box) : Prop :=
  0 ≤ b.left ∧ 0 ≤ b.top ∧ b.left + b.width ≤ W ∧ b.top + b.height ≤ H

/-- The mode/visibility state: `isJoystickMode` (line 62), the persisted
`localStorage` entry for `'controlMode'`, the `hidden` class state of the two
movement clusters and the toggle button's label.  Both clusters always exist
as fields: toggling only flips their `hidden` classes, it never removes an
element from the tree. -/
structure ModeState where
  isJoystickMode : Bool
  stored : Option String
  dpadHidden : Bool
  joystickHidden : Bool
  toggleLabel : String
deriving DecidableEq, Repr

/-- `updateControlVisibility` (lines 364–368): `classList.toggle('hidden', flag)`
sets the `hidden` class to the flag, and the toggle label names the other
scheme. -/
def updateControlVisibility (st : ModeState) : ModeState :=
  { st with
    dpadHidden := st.isJoystickMode
    joystickHidden := !st.isJoystickMode
    toggleLabel := if st.isJoystickMode then "Use D-Pad" else "Use Joystick" }

/-- The scheme identifier persisted by the toggle handler:
`isJoystickMode ? 'joystick' : 'dpad'` (line 355). -/
def schemeId (isJoy : Bool) : String := if isJoy then "joystick" else "dpad"

/-- The `control-toggle-button` click handler (lines 353–357), in the normal
case where `localStorage.setItem` succeeds: flip the mode, persist the new
scheme's identifier, update visibility. -/
def toggleClick (st : ModeState) : ModeState :=
  let m := !st.isJoystickMode
  updateControlVisibility
    { st with isJoystickMode := m, stored := some (schemeId m) }

/-- Line 62, `localStorage.getItem('controlMode') === 'joystick'`, with the
storage access's outcome made explicit: `getItem` either throws
(`Except.error`, in which case the exception propagates out of the module
initializer — there is no `try`/`catch` anywhere in the script) or returns
the stored value (`null` = `none`), which is then compared to
`'joystick'`. -/
def loadControlMode (getOutcome : Except Unit (Option String)) :
    Except Unit Bool :=  -- `unit` error: the thrown exception's identity is irrelevant
  match getOutcome with
  | Except.error e => Except.error e
  | Except.ok v => Except.ok (v == some "joystick")

/-- The toggle click handler (lines 353–357) with the
`localStorage.setItem` outcome made explicit.  The in-memory flip on
line 354 happens before the `setItem` call, so it survives either way; if
`setItem` throws, the handler aborts: `stored` is unchanged,
`updateControlVisibility` never runs, and the exception propagates to the
event dispatch (second component `some ()`). -/
def toggleClickFallible (setOutcome : Except Unit Unit) (st : ModeState) :
    ModeState × Option Unit :=
  let m := !st.isJoystickMode
  let flipped := { st with isJoystickMode := m }
  match setOutcome with
  | Except.error _ => (flipped, some ())
  | Except.ok _ =>
      (updateControlVisibility { flipped with stored := some (schemeId m) }, none)

/-! ## Helper lemmas -/

section Ladder

variable {α : Type} [LinearOrderedField α]

lemma directionLadder_left (a : α) (h : 2356 / 1000 < |a|) :
    directionLadder a = some Dir.left := by
  unfold directionLadder
  rw [if_pos h]

lemma directionLadder_right (a : α) (h1 : ¬ 2356 / 1000 < |a|)
    (h2 : |a| < 785 / 1000) : directionLadder a = some Dir.right := by
  unfold directionLadder
  rw [if_neg h1, if_pos h2]

lemma directionLadder_up (a : α) (h1 : ¬ 2356 / 1000 < |a|)
    (h2 : ¬ |a| < 785 / 1000) (h3 : a < -(785 / 1000)) :
    directionLadder a = some Dir.up := by
  unfold directionLadder
  rw [if_neg h1, if_neg h2, if_pos h3]

lemma directionLadder_down (a : α) (h1 : ¬ 2356 / 1000 < |a|)
    (h2 : ¬ |a| < 785 / 1000) (h3 : ¬ a < -(785 / 1000))
    (h4 : 785 / 1000 < a) : directionLadder a = some Dir.down := by
  unfold directionLadder
  rw [if_neg h1, if_neg h2, if_neg h3, if_pos h4]

lemma directionLadder_eq_none_iff (a : α) :
    directionLadder a = none ↔ a = 785 / 1000 ∨ a = -(785 / 1000) := by
  unfold directionLadder
  split_ifs with h1 h2 h3 h4
  · simp only [reduceCtorEq, false_iff]
    push_neg
    constructor
    · rintro rfl
      rw [abs_of_nonneg (by norm_num)] at h1
      norm_num at h1
    · rintro rfl
      rw [abs_neg, abs_of_nonneg (by norm_num)] at h1
      norm_num at h1
  · simp only [reduceCtorEq, false_iff]
    push_neg
    constructor
    · rintro rfl
      rw [abs_of_nonneg (by norm_num)] at h2
      norm_num at h2
    · rintro rfl
      rw [abs_neg, abs_of_nonneg (by norm_num)] at h2
      norm_num at h2
  · simp only [reduceCtorEq, false_iff]
    push_neg
    refine ⟨by rintro rfl; norm_num at h3, by rintro rfl; norm_num at h3⟩
  · simp only [reduceCtorEq, false_iff]
    push_neg
    refine ⟨by rintro rfl; norm_num at h4, ?_⟩
    rintro rfl
    norm_num at h4
  · simp only [true_iff]
    push_neg at h1 h2 h3 h4
    rcases abs_cases a with ⟨habs, _⟩ | ⟨habs, _⟩
    · left
      rw [habs] at h2
      linarith
    · right
      rw [habs] at h2
      linarith

lemma resolveDirection_above (radius distance a : α)
    (h : radius * (20 / 100) < distance) :
    resolveDirection radius distance a = directionLadder a := by
  unfold resolveDirection
  rw [if_pos h]

end Ladder

lemma keyMappings_dir (d : Dir) :
    KEY_MAPPINGS (dirMappingId (some d)) = some (arrowKeyMapping d) := by
  cases d <;> rfl

lemma keyMappings_null : KEY_MAPPINGS (dirMappingId none) = none := rfl

lemma simulate_dir_events (t : KeyEvType) (o : Option Dir) :
    simulateKeyEvent t (KEY_MAPPINGS (dirMappingId o)) =
      (o.map fun p => KeyEvent.mk t (arrowKeyMapping p)).toList := by
  cases o with
  | none => rfl
  | some d => cases d <;> rfl

/-! ## Claims -/

/-- **C1** (amended).  For every joystick move sample above the deadzone,
the resolved discrete direction follows the first-match-wins four-way ladder
on the contact angle (range −π..π): `|angle| > 2.356` gives left, else
`|angle| < 0.785` gives right, else `angle < −0.785` gives up, else
`angle > 0.785` gives down; in particular angle 0 gives right, π/2 gives
down, −π/2 gives up, π and −π give left.  At angle exactly 0.785 every
comparison of the ladder is strict, no branch matches, and the resolved
direction is none (not down). -/
theorem C1_joystick_angle_ladder (radius distance : ℝ)
    (h : radius * (20 / 100) < distance) :
    (∀ a : ℝ, 2356 / 1000 < |a| →
      resolveDirection radius distance a = some Dir.left) ∧
    (∀ a : ℝ, |a| ≤ 2356 / 1000 → |a| < 785 / 1000 →
      resolveDirection radius distance a = some Dir.right) ∧
    (∀ a : ℝ, |a| ≤ 2356 / 1000 → 785 / 1000 ≤ |a| → a < -(785 / 1000) →
      resolveDirection radius distance a = some Dir.up) ∧
    (∀ a : ℝ, |a| ≤ 2356 / 1000 → 785 / 1000 ≤ |a| → -(785 / 1000) ≤ a →
      785 / 1000 < a → resolveDirection radius distance a = some Dir.down) ∧
    resolveDirection radius distance 0 = some Dir.right ∧
    resolveDirection radius distance (Real.pi / 2) = some Dir.down ∧
    resolveDirection radius distance (-(Real.pi / 2)) = some Dir.up ∧
    resolveDirection radius distance Real.pi = some Dir.left ∧
    resolveDirection radius distance (-Real.pi) = some Dir.left ∧
    resolveDirection radius distance (785 / 1000) = none := by
  have hres : ∀ a : ℝ, resolveDirection radius distance a = directionLadder a :=
    fun a => resolveDirection_above radius distance a h
  have pi_lb : (3.141592 : ℝ) < Real.pi := Real.pi_gt_d6
  have pi_ub : Real.pi < 3.15 := Real.pi_lt_d2
  have habs_half : |Real.pi / 2| = Real.pi / 2 := abs_of_nonneg (by positivity)
  have habs_pi : |Real.pi| = Real.pi := abs_of_nonneg (by positivity)
  refine ⟨?_, ?_, ?_, ?_, ?_, ?_, ?_, ?_, ?_, ?_⟩
  · intro a ha
    rw [hres]
    exact directionLadder_left a ha
  · intro a ha hb
    rw [hres]
    exact directionLadder_right a (not_lt.mpr ha) hb
  · intro a ha hb hc
    rw [hres]
    exact directionLadder_up a (not_lt.mpr ha) (not_lt.mpr hb) hc
  · intro a ha hb hc hd
    rw [hres]
    exact directionLadder_down a (not_lt.mpr ha) (not_lt.mpr hb)
      (not_lt.mpr hc) hd
  · rw [hres]
    exact directionLadder_right 0 (by rw [abs_zero]; norm_num)
      (by rw [abs_zero]; norm_num)
  · rw [hres]
    refine directionLadder_down _ ?_ ?_ ?_ ?_
    · rw [habs_half]
      push_neg
      linarith
    · rw [habs_half]
      push_neg
      linarith
    · push_neg
      linarith
    · linarith
  · rw [hres]
    refine directionLadder_up _ ?_ ?_ ?_
    · rw [abs_neg, habs_half]
      linarith
    · rw [abs_neg, habs_half]
      push_neg
      linarith
    · linarith
  · rw [hres]
    refine directionLadder_left _ ?_
    rw [habs_pi]
    linarith
  · rw [hres]
    refine directionLadder_left _ ?_
    rw [abs_neg, habs_pi]
    linarith
  · rw [hres]
    exact (directionLadder_eq_none_iff (785 / 1000 : ℝ)).mpr (Or.inl rfl)

/-- **C1** witness: a concrete sample above the deadzone (radius 50, clamped
magnitude 30) resolving to right at angle 0 and to left at angle 3. -/
theorem C1_joystick_angle_ladder_witness :
    (50 : ℝ) * (20 / 100) < 30 ∧
      resolveDirection (50 : ℝ) 30 0 = some Dir.right ∧
      resolveDirection (50 : ℝ) 30 3 = some Dir.left :=
  ⟨by norm_num,
    (C1_joystick_angle_ladder 50 30 (by norm_num)).2.2.2.2.1,
    (C1_joystick_angle_ladder 50 30 (by norm_num)).1 3
      (by rw [show |(3 : ℝ)| = 3 from abs_of_nonneg (by norm_num)]; norm_num)⟩

/-- **C1** counterexample to the claim as stated: at a sample above the
deadzone (radius 50, so deadzone threshold 10, clamped magnitude 30) with
contact angle exactly 0.785, the resolved direction is none, not down — the
source's `angle > 0.785` comparison is strict and no ladder branch
matches. -/
theorem C1_boundary_counterexample :
    (50 : ℚ) * (20 / 100) < 30 ∧
      resolveDirection (50 : ℚ) 30 (785 / 1000) = none ∧
      resolveDirection (50 : ℚ) 30 (785 / 1000) ≠ some Dir.down := by
  refine ⟨by norm_num, ?_, ?_⟩
  · norm_num [resolveDirection, directionLadder, abs_of_nonneg]
  · norm_num [resolveDirection, directionLadder, abs_of_nonneg]
    decide

/-- **C2** (amended).  A clamped contact magnitude exactly at
`radius × 0.20` resolves to none (the deadzone comparison is strict); above
the deadzone the resolved direction depends only on the angle (any radius
and any magnitude above the threshold give the same direction), and it is
none exactly at the two boundary angles `0.785` and `−0.785` — at every
other angle it is a proper direction. -/
theorem C2_deadzone_boundary (α : Type) [LinearOrderedField α] :
    (∀ r a : α, resolveDirection r (r * (20 / 100)) a = none) ∧
    (∀ r₁ d₁ r₂ d₂ a : α, r₁ * (20 / 100) < d₁ → r₂ * (20 / 100) < d₂ →
      resolveDirection r₁ d₁ a = resolveDirection r₂ d₂ a) ∧
    (∀ r d a : α, r * (20 / 100) < d →
      (resolveDirection r d a = none ↔
        a = 785 / 1000 ∨ a = -(785 / 1000))) := by
  refine ⟨?_, ?_, ?_⟩
  · intro r a
    unfold resolveDirection
    rw [if_neg (lt_irrefl _)]
  · intro r₁ d₁ r₂ d₂ a h₁ h₂
    rw [resolveDirection_above r₁ d₁ a h₁, resolveDirection_above r₂ d₂ a h₂]
  · intro r d a h
    rw [resolveDirection_above r d a h]
    exact directionLadder_eq_none_iff a

/-- **C2** witness: radius 50 gives threshold 10; magnitude exactly 10
resolves to none, the direction at angle 0 is the same for magnitudes 30 and
49, and magnitude 30 at the boundary angle 0.785 resolves to none. -/
theorem C2_deadzone_boundary_witness :
    resolveDirection (50 : ℚ) (50 * (20 / 100)) 0 = none ∧
      resolveDirection (50 : ℚ) 30 0 = resolveDirection (50 : ℚ) 49 0 ∧
      resolveDirection (50 : ℚ) 30 (785 / 1000) = none :=
  ⟨(C2_deadzone_boundary ℚ).1 50 0,
    (C2_deadzone_boundary ℚ).2.1 50 30 50 49 0 (by norm_num) (by norm_num),
    ((C2_deadzone_boundary ℚ).2.2 50 30 (785 / 1000) (by norm_num)).mpr
      (Or.inl rfl)⟩

/-- **C2** counterexample to the claim as stated: with radius 10 the deadzone
threshold is 2; the magnitude 9 is strictly above it, yet at angle exactly
−0.785 the resolved direction is none, not a proper direction. -/
theorem C2_nonnone_counterexample :
    (10 : ℚ) * (20 / 100) < 9 ∧
      resolveDirection (10 : ℚ) 9 (-(785 / 1000)) = none := by
  constructor
  · norm_num
  · norm_num [resolveDirection, directionLadder, abs_neg, abs_of_nonneg]

/-- **C3** (confirmed).  For one joystick move sample against the tracked
direction `prev`: if the newly resolved direction equals `prev`, no key event
is dispatched and the tracked direction is unchanged; if it differs, the
dispatched list is exactly the key-up for `prev`'s mapped arrow key (empty
when `prev` is none, since `'touch-null'` has no mapping) followed by the
key-down for the new direction's mapped arrow key (empty when the new
direction is none), and the tracked direction becomes the new direction. -/
theorem C3_direction_change_events (radius distance angle : ℚ)
    (prev : Option Dir) :
    (resolveDirection radius distance angle = prev →
      handleJoystickMove radius distance angle prev = (prev, [])) ∧
    (resolveDirection radius distance angle ≠ prev →
      handleJoystickMove radius distance angle prev =
        (resolveDirection radius distance angle,
          (prev.map fun p =>
            KeyEvent.mk KeyEvType.keyup (arrowKeyMapping p)).toList ++
            ((resolveDirection radius distance angle).map fun q =>
              KeyEvent.mk KeyEvType.keydown (arrowKeyMapping q)).toList)) := by
  constructor
  · intro h
    unfold handleJoystickMove
    rw [if_neg (not_not_intro h)]
  · intro h
    unfold handleJoystickMove
    rw [if_pos h, simulate_dir_events, simulate_dir_events]

/-- **C3** witness: from tracked direction none, a sample at angle 0 above
the deadzone resolves to right and dispatches exactly one ArrowRight
key-down (the key-up for the previous `none` direction is a no-op). -/
theorem C3_direction_change_events_witness :
    handleJoystickMove (50 : ℚ) 30 0 none =
      (some Dir.right,
        [⟨KeyEvType.keydown, arrowKeyMapping Dir.right⟩]) := by
  have h30 : resolveDirection (50 : ℚ) 30 0 = some Dir.right := by
    norm_num [resolveDirection, directionLadder]
  have h := (C3_direction_change_events 50 30 0 none).2 (by rw [h30]; decide)
  rw [h, h30]
  rfl

/-- **C9** (confirmed).  A contact-end on the overlay container whose target
does not resolve to a discrete (action, system or directional-pad) control
clears the active visual state from every currently active button but
dispatches no key-up; a key-down dispatched at contact-start over a discrete
control (here `touch-z`) is therefore unmatched when the release lands on a
non-discrete target. -/
theorem C9_touchend_without_keyup :
    (∀ (active : List String) (t : Option ButtonInfo),
      resolvesDiscrete t = false → containerTouchend active t = ([], [])) ∧
    containerTouchstart []
        (some ⟨"touch-z", ["virtual-button", "action-button"]⟩) =
      (["touch-z"], [⟨KeyEvType.keydown, ⟨"z", 90, "KeyZ"⟩⟩]) ∧
    containerTouchend ["touch-z"] none = ([], []) := by
  refine ⟨?_, by decide, by decide⟩
  intro active t h
  cases t with
  | none => rfl
  | some b =>
      simp only [resolvesDiscrete] at h
      simp [containerTouchend, h]

/-- **C9** witness: a release over the joystick base (a `.virtual-button`
without a discrete class) clears the active set and emits nothing. -/
theorem C9_touchend_without_keyup_witness :
    containerTouchend ["touch-x"]
        (some ⟨"joystick-base", ["virtual-button"]⟩) = ([], []) :=
  C9_touchend_without_keyup.1 ["touch-x"]
    (some ⟨"joystick-base", ["virtual-button"]⟩) (by decide)

/-- **C10** (amended).  The joystick-base contact-start handler runs the
move-resolution logic immediately on the initial contact point: when no
direction is tracked and the initial point resolves to a direction (it lies
outside the deadzone at a non-boundary angle), the direction's key-down is
dispatched already at contact-start, before any move event, and the contact
id and direction are recorded. -/
theorem C10_touchstart_resolves (radius distance angle : ℚ)
    (st : JoystickRuntimeState) (touchId : Nat) (d : Dir)
    (hprev : st.currentJoystickDirection = none)
    (hdir : resolveDirection radius distance angle = some d) :
    joystickTouchstart radius st touchId distance angle =
      (⟨some touchId, some d⟩, [⟨KeyEvType.keydown, arrowKeyMapping d⟩]) := by
  unfold joystickTouchstart handleJoystickMove
  rw [hprev, hdir]
  rw [if_pos (Option.some_ne_none d)]
  rw [simulate_dir_events, simulate_dir_events]
  rfl

/-- **C10** witness: a fresh contact (tracked direction none) starting at
angle 0 with clamped magnitude 30 on a base of radius 50 dispatches the
ArrowRight key-down at contact-start. -/
theorem C10_touchstart_resolves_witness :
    joystickTouchstart (50 : ℚ) ⟨none, none⟩ 7 30 0 =
      (⟨some 7, some Dir.right⟩,
        [⟨KeyEvType.keydown, arrowKeyMapping Dir.right⟩]) :=
  C10_touchstart_resolves 50 30 0 ⟨none, none⟩ 7 Dir.right rfl
    (by norm_num [resolveDirection, directionLadder])

/-- **C10** counterexample to the claim as stated: the initial contact point
with clamped magnitude 30 on a base of radius 50 lies strictly outside the
deadzone (30 > 10), yet at angle exactly 0.785 no ladder branch matches, so
no key-down is dispatched at contact-start. -/
theorem C10_boundary_counterexample :
    (50 : ℚ) * (20 / 100) < 30 ∧
      joystickTouchstart (50 : ℚ) ⟨none, none⟩ 0 30 (785 / 1000) =
        (⟨some 0, none⟩, []) := by
  constructor
  · norm_num
  · norm_num [joystickTouchstart, handleJoystickMove, resolveDirection,
      directionLadder, abs_of_nonneg]

/-- **C7** (confirmed).  The layout pass is a pure function of the viewport
dimensions and the static configuration: with identical inputs it produces
identical geometry whatever style state it overwrites (no dependence on
previously applied geometry), and in particular running it twice is the same
as running it once. -/
theorem C7_layout_pure (cfg : Config) (p₁ p₂ : LayoutState) (W H : ℚ) :
    calculateAndApplyLayout cfg p₁ W H = calculateAndApplyLayout cfg p₂ W H ∧
      calculateAndApplyLayout cfg (calculateAndApplyLayout cfg p₁ W H) W H =
        calculateAndApplyLayout cfg p₁ W H :=
  ⟨rfl, rfl⟩

/-- **C8** (confirmed).  For a fixed short side `s`, every scale-dependent
dimension of the landscape layout (`W₁ > H₁`) is exactly `1.4 ×` the
corresponding portrait dimension (`W₂ ≤ H₂`): action-button size, ESC-button
size, movement-cluster size (both containers), toggle width and height,
d-pad button size, joystick base and thumb sizes, and all font metrics.
Padding and gap are not scale-dependent and are excluded. -/
theorem C8_orientation_scaling (W₁ H₁ W₂ H₂ s : ℚ) (p₁ p₂ : LayoutState)
    (hl : H₁ < W₁) (hs₁ : min W₁ H₁ = s) (hp : ¬ H₂ < W₂)
    (hs₂ : min W₂ H₂ = s) :
    (calculateAndApplyLayout CONFIG p₁ W₁ H₁).touchQ.width =
      14 / 10 * (calculateAndApplyLayout CONFIG p₂ W₂ H₂).touchQ.width ∧
    (calculateAndApplyLayout CONFIG p₁ W₁ H₁).touchEsc.width =
      14 / 10 * (calculateAndApplyLayout CONFIG p₂ W₂ H₂).touchEsc.width ∧
    (calculateAndApplyLayout CONFIG p₁ W₁ H₁).dpadContainer.width =
      14 / 10 * (calculateAndApplyLayout CONFIG p₂ W₂ H₂).dpadContainer.width ∧
    (calculateAndApplyLayout CONFIG p₁ W₁ H₁).joystickContainer.width =
      14 / 10 *
        (calculateAndApplyLayout CONFIG p₂ W₂ H₂).joystickContainer.width ∧
    (calculateAndApplyLayout CONFIG p₁ W₁ H₁).toggleButton.width =
      14 / 10 * (calculateAndApplyLayout CONFIG p₂ W₂ H₂).toggleButton.width ∧
    (calculateAndApplyLayout CONFIG p₁ W₁ H₁).toggleButton.height =
      14 / 10 * (calculateAndApplyLayout CONFIG p₂ W₂ H₂).toggleButton.height ∧
    (calculateAndApplyLayout CONFIG p₁ W₁ H₁).dpadButtonSize =
      14 / 10 * (calculateAndApplyLayout CONFIG p₂ W₂ H₂).dpadButtonSize ∧
    (calculateAndApplyLayout CONFIG p₁ W₁ H₁).joystickBaseSize =
      14 / 10 * (calculateAndApplyLayout CONFIG p₂ W₂ H₂).joystickBaseSize ∧
    (calculateAndApplyLayout CONFIG p₁ W₁ H₁).joystickThumbSize =
      14 / 10 * (calculateAndApplyLayout CONFIG p₂ W₂ H₂).joystickThumbSize ∧
    (calculateAndApplyLayout CONFIG p₁ W₁ H₁).actionFontSize =
      14 / 10 * (calculateAndApplyLayout CONFIG p₂ W₂ H₂).actionFontSize ∧
    (calculateAndApplyLayout CONFIG p₁ W₁ H₁).escFontSize =
      14 / 10 * (calculateAndApplyLayout CONFIG p₂ W₂ H₂).escFontSize ∧
    (calculateAndApplyLayout CONFIG p₁ W₁ H₁).toggleFontSize =
      14 / 10 * (calculateAndApplyLayout CONFIG p₂ W₂ H₂).toggleFontSize ∧
    (calculateAndApplyLayout CONFIG p₁ W₁ H₁).toggleBorderRadius =
      14 / 10 *
        (calculateAndApplyLayout CONFIG p₂ W₂ H₂).toggleBorderRadius := by
  simp only [calculateAndApplyLayout, CONFIG, hs₁, hs₂, gt_iff_lt, hl, hp,
    if_true, if_false, ite_true, ite_false]
  refine ⟨?_, ?_, ?_, ?_, ?_, ?_, ?_, ?_, ?_, ?_, ?_, ?_, ?_⟩ <;> ring

/-- **C8** witness: viewport 844×390 (landscape) against 390×844 (portrait),
short side 390 — the spec's end-to-end scenario; the landscape action-button
size is 60.06 px, 1.4 times the portrait 42.9 px. -/
theorem C8_orientation_scaling_witness :
    (calculateAndApplyLayout CONFIG emptyLayout 844 390).touchQ.width =
        6006 / 100 ∧
      (calculateAndApplyLayout CONFIG emptyLayout 390 844).touchQ.width =
        429 / 10 ∧
      (calculateAndApplyLayout CONFIG emptyLayout 844 390).touchQ.width =
        14 / 10 *
          (calculateAndApplyLayout CONFIG emptyLayout 390 844).touchQ.width :=
  ⟨by norm_num [calculateAndApplyLayout, CONFIG, min_def],
    by norm_num [calculateAndApplyLayout, CONFIG, min_def],
    (C8_orientation_scaling 844 390 390 844 390 emptyLayout emptyLayout
      (by norm_num) (by norm_num [min_def]) (by norm_num)
      (by norm_num [min_def])).1⟩

/-- **C6** (amended).  With the repository's configuration (`scale 1.0`,
`paddingPercent 4`, `gapPercent 3`), for every viewport `W × H` with
`W, H > 0` the layout pass places every box it positions — action cluster,
the six action buttons, ESC button, both movement containers and the toggle
button — fully inside the viewport; the children it only sizes (d-pad
buttons, joystick base, thumb) all fit inside their in-viewport movement
container. -/
theorem C6_layout_in_viewport (prev : LayoutState) (W H : ℚ)
    (hW : 0 < W) (hH : 0 < H) :
    inView W H (calculateAndApplyLayout CONFIG prev W H).actionCluster ∧
    inView W H (calculateAndApplyLayout CONFIG prev W H).touchQ ∧
    inView W H (calculateAndApplyLayout CONFIG prev W H).touchZ ∧
    inView W H (calculateAndApplyLayout CONFIG prev W H).touchX ∧
    inView W H (calculateAndApplyLayout CONFIG prev W H).touchM ∧
    inView W H (calculateAndApplyLayout CONFIG prev W H).touchC ∧
    inView W H (calculateAndApplyLayout CONFIG prev W H).touchV ∧
    inView W H (calculateAndApplyLayout CONFIG prev W H).touchEsc ∧
    inView W H (calculateAndApplyLayout CONFIG prev W H).dpadContainer ∧
    inView W H (calculateAndApplyLayout CONFIG prev W H).joystickContainer ∧
    inView W H (calculateAndApplyLayout CONFIG prev W H).toggleButton ∧
    (calculateAndApplyLayout CONFIG prev W H).dpadButtonSize ≤
      (calculateAndApplyLayout CONFIG prev W H).dpadContainer.width ∧
    (calculateAndApplyLayout CONFIG prev W H).joystickBaseSize ≤
      (calculateAndApplyLayout CONFIG prev W H).joystickContainer.width ∧
    (calculateAndApplyLayout CONFIG prev W H).joystickThumbSize ≤
      (calculateAndApplyLayout CONFIG prev W H).joystickBaseSize := by
  rcases lt_or_le H W with hl | hp
  · have hmin : min W H = H := min_eq_right hl.le
    simp only [calculateAndApplyLayout, CONFIG, inView, gt_iff_lt, hl,
      ite_true, if_true, hmin]
    repeat' apply And.intro
    all_goals linarith
  · have hmin : min W H = W := min_eq_left hp
    have hnl : ¬ H < W := not_lt.mpr hp
    simp only [calculateAndApplyLayout, CONFIG, inView, gt_iff_lt, hnl,
      ite_false, if_false, hmin]
    repeat' apply And.intro
    all_goals linarith

/-- **C6** witness: viewport 100×100 with the repository configuration; the
action cluster and the toggle button land inside the viewport. -/
theorem C6_layout_in_viewport_witness :
    inView 100 100
        (calculateAndApplyLayout CONFIG emptyLayout 100 100).actionCluster ∧
      inView 100 100
        (calculateAndApplyLayout CONFIG emptyLayout 100 100).toggleButton :=
  ⟨(C6_layout_in_viewport emptyLayout 100 100 (by norm_num) (by norm_num)).1,
    (C6_layout_in_viewport emptyLayout 100 100 (by norm_num)
      (by norm_num)).2.2.2.2.2.2.2.2.2.2.1⟩

/-- **C6** counterexample to the claim as stated: the claim quantifies over
all configurations with `padding ≥ 0` and `scale ≥ 0`, but with scale 10
(padding 4, gap 3) in a 100×100 viewport the movement cluster is 380 px tall
and its computed top edge is −284, far outside the viewport. -/
theorem C6_scale_counterexample :
    (0 : ℚ) ≤ 10 ∧ (0 : ℚ) ≤ 4 ∧ (0 : ℚ) < 100 ∧
      ¬ inView 100 100
        (calculateAndApplyLayout ⟨10, 4, 3⟩ emptyLayout
          100 100).dpadContainer := by
  norm_num [calculateAndApplyLayout, inView, min_def]

/-- **C5** (confirmed).  Starting from any state whose cluster visibility
reflects the current mode (as `init` establishes), one toggle leaves exactly
one of the two movement clusters visible (both always remain present as
state — toggling only flips `hidden` flags), the mode's cluster is the
visible one, the persisted preference equals the newly active scheme's
identifier, and a second toggle restores the original scheme and the
original visibility of both clusters. -/
theorem C5_toggle_law (st : ModeState)
    (hd : st.dpadHidden = st.isJoystickMode)
    (hj : st.joystickHidden = !st.isJoystickMode) :
    ((toggleClick st).dpadHidden = !(toggleClick st).joystickHidden) ∧
    ((toggleClick st).dpadHidden = (toggleClick st).isJoystickMode) ∧
    ((toggleClick st).stored =
      some (schemeId (toggleClick st).isJoystickMode)) ∧
    ((toggleClick (toggleClick st)).isJoystickMode = st.isJoystickMode) ∧
    ((toggleClick (toggleClick st)).dpadHidden = st.dpadHidden) ∧
    ((toggleClick (toggleClick st)).joystickHidden = st.joystickHidden) := by
  cases hb : st.isJoystickMode <;>
    simp [toggleClick, updateControlVisibility, schemeId, hd, hj, hb]

/-- **C5** witness: starting in D-Pad mode with consistent visibility, one
toggle persists `'joystick'` and a second toggle returns to D-Pad mode. -/
theorem C5_toggle_law_witness :
    (toggleClick ⟨false, none, false, true, "Use Joystick"⟩).stored =
        some (schemeId
          (toggleClick ⟨false, none, false, true,
            "Use Joystick"⟩).isJoystickMode) ∧
      (toggleClick (toggleClick ⟨false, none, false, true,
        "Use Joystick"⟩)).isJoystickMode = false :=
  ⟨(C5_toggle_law ⟨false, none, false, true, "Use Joystick"⟩ rfl rfl).2.2.1,
    (C5_toggle_law ⟨false, none, false, true, "Use Joystick"⟩
      rfl rfl).2.2.2.1⟩

/-- **C4** (amended).  The script has no `try`/`catch` around its storage
accesses, so a throwing storage call propagates: a failing
`localStorage.getItem` aborts the whole initializer instead of defaulting;
a failing `localStorage.setItem` inside the toggle handler leaves the
already-flipped in-memory mode (the flip on line 354 precedes the write) but
skips the visibility update and lets the exception escape.  Only when
storage works does load default: any value other than `'joystick'`
(including absent) yields D-Pad mode, and `'joystick'` yields joystick
mode. -/
theorem C4_storage_failure (st : ModeState) :
    loadControlMode (Except.error ()) = Except.error () ∧
    (∀ v : Option String, v ≠ some "joystick" →
      loadControlMode (Except.ok v) = Except.ok false) ∧
    loadControlMode (Except.ok (some "joystick")) = Except.ok true ∧
    toggleClickFallible (Except.error ()) st =
      ({ st with isJoystickMode := !st.isJoystickMode }, some ()) := by
  refine ⟨rfl, ?_, rfl, rfl⟩
  intro v hv
  show Except.ok (v == some "joystick") = Except.ok false
  rw [show (v == some "joystick") = false from beq_eq_false_iff_ne.mpr hv]

/-- **C4** witness: an absent stored value loads as D-Pad mode, and a
throwing save during a toggle from D-Pad mode flips only the in-memory mode
and reports the propagated exception. -/
theorem C4_storage_failure_witness :
    loadControlMode (Except.ok none) = Except.ok false ∧
      toggleClickFallible (Except.error ())
          ⟨false, none, false, true, "Use Joystick"⟩ =
        (⟨true, none, false, true, "Use Joystick"⟩, some ()) :=
  ⟨(C4_storage_failure ⟨false, none, false, true, "Use Joystick"⟩).2.1 none
      (by decide),
    (C4_storage_failure ⟨false, none, false, true, "Use Joystick"⟩).2.2.2⟩

/-- **C4** counterexample to the claim as stated: when storage throws, load
does not fall back to the D-Pad default but propagates the error, and the
toggle handler propagates the failure to its caller while leaving the
joystick cluster hidden (no visibility update) even though the mode already
flipped to joystick. -/
theorem C4_storage_failure_counterexample :
    loadControlMode (Except.error ()) ≠ Except.ok false ∧
      (toggleClickFallible (Except.error ())
          ⟨false, none, false, true, "Use Joystick"⟩).2 ≠ none ∧
      (toggleClickFallible (Except.error ())
          ⟨false, none, false, true, "Use Joystick"⟩).1.isJoystickMode =
        true ∧
      (toggleClickFallible (Except.error ())
          ⟨false, none, false, true, "Use Joystick"⟩).1.joystickHidden =
        true := by
  refine ⟨?_, ?_, rfl, rfl⟩
  · intro h
    exact Except.noConfusion h
  · intro h
    exact Option.noConfusion h

end TouchControls
